import Mathlib

/-!
Verification of the image-transport core (directory destination, OCI layout
destination, registry client source, manifest dispatch) against its
natural-language specification.  The Go code is shallowly embedded: byte
streams are lists of bytes together with an end-of-stream outcome, the
filesystem is an association list from paths to files, and each operation is
a pure function from its inputs (plus an environment recording which
fallible system calls succeed) to its results and the final filesystem.
-/

namespace ImageCore

/-! ## Bytes, 32-bit arithmetic and SHA-256

The blob write path hashes the stream with SHA-256 (`crypto/sha256`) and
hex-encodes the sum (`encoding/hex`).  We implement SHA-256 directly on
`Nat`, with explicit reduction modulo `2^32` where the Go `uint32`
arithmetic overflows. -/

def pow32 : Nat := 4294967296

def rotr32 (x n : Nat) : Nat := ((x >>> n) ||| (x <<< (32 - n))) % pow32

def smallSigma0 (x : Nat) : Nat := (rotr32 x 7) ^^^ (rotr32 x 18) ^^^ (x >>> 3)

def smallSigma1 (x : Nat) : Nat := (rotr32 x 17) ^^^ (rotr32 x 19) ^^^ (x >>> 10)

def bigSigma0 (x : Nat) : Nat := (rotr32 x 2) ^^^ (rotr32 x 13) ^^^ (rotr32 x 22)

def bigSigma1 (x : Nat) : Nat := (rotr32 x 6) ^^^ (rotr32 x 11) ^^^ (rotr32 x 25)

/-- The 64 SHA-256 round constants, in decimal. -/
def sha256K : List Nat :=
  [1116352408, 1899447441, 3049323471, 3921009573, 961987163,
   1508970993, 2453635748, 2870763221, 3624381080, 310598401,
   607225278, 1426881987, 1925078388, 2162078206, 2614888103,
   3248222580, 3835390401, 4022224774, 264347078, 604807628,
   770255983, 1249150122, 1555081692, 1996064986, 2554220882,
   2821834349, 2952996808, 3210313671, 3336571891, 3584528711,
   113926993, 338241895, 666307205, 773529912, 1294757372,
   1396182291, 1695183700, 1986661051, 2177026350, 2456956037,
   2730485921, 2820302411, 3259730800, 3345764771, 3516065817,
   3600352804, 4094571909, 275423344, 430227734, 506948616,
   659060556, 883997877, 958139571, 1322822218, 1537002063,
   1747873779, 1955562222, 2024104815, 2227730452, 2361852424,
   2428436474, 2756734187, 3204031479, 3329325298]

/-- The eight SHA-256 initial hash words, in decimal. -/
def sha256H0 : List Nat :=
  [1779033703, 3144134277, 1013904242, 2773480762,
   1359893119, 2600822924, 528734635, 1541459225]

/-- Big-endian byte expansion of `x` into `n` bytes. -/
def bytesBE : Nat → Nat → List Nat
  | 0, _ => []
  | n + 1, x => bytesBE n (x / 256) ++ [x % 256]

/-- SHA-256 padding: append `0x80`, zero bytes to 56 mod 64, then the
bit length as 8 big-endian bytes. -/
def sha256pad (msg : List Nat) : List Nat :=
  let zeros := (119 - msg.length % 64) % 64
  msg ++ [0x80] ++ List.replicate zeros 0 ++ bytesBE 8 (msg.length * 8)

/-- Group bytes into big-endian 32-bit words. -/
def toWords : List Nat → List Nat
  | a :: b :: c :: d :: rest => (((a * 256 + b) * 256 + c) * 256 + d) :: toWords rest
  | _ => []

/-- Extend a 16-word block to the 64-word message schedule (`n` more words). -/
def extendW : Nat → List Nat → List Nat
  | 0, w => w
  | n + 1, w =>
    let t := w.length
    let x := (smallSigma1 (w.getD (t - 2) 0) + w.getD (t - 7) 0 +
              smallSigma0 (w.getD (t - 15) 0) + w.getD (t - 16) 0) % pow32
    extendW n (w ++ [x])

/-- One round of the SHA-256 compression function on the 8-word state. -/
def sha256round (st : List Nat) (kw : Nat × Nat) : List Nat :=
  match st with
  | [a, b, c, d, e, f, g, h] =>
    let ch := (e &&& f) ^^^ ((e ^^^ (pow32 - 1)) &&& g)
    let maj := (a &&& b) ^^^ (a &&& c) ^^^ (b &&& c)
    let t1 := (h + bigSigma1 e + ch + kw.1 + kw.2) % pow32
    let t2 := (bigSigma0 a + maj) % pow32
    [(t1 + t2) % pow32, a, b, c, (d + t1) % pow32, e, f, g]
  | other => other

/-- Process one 16-word block into the running 8-word hash. -/
def sha256block (h : List Nat) (block : List Nat) : List Nat :=
  let w := extendW 48 block
  let st := (sha256K.zip w).foldl sha256round h
  List.zipWith (fun x y => (x + y) % pow32) h st

/-- Split a word list into 16-word blocks (structural recursion on fuel,
so that the kernel can evaluate it). -/
def blocks16Aux : Nat → List Nat → List (List Nat)
  | 0, _ => []
  | _, [] => []
  | fuel + 1, l => l.take 16 :: blocks16Aux fuel (l.drop 16)

/-- Split a word list into 16-word blocks. -/
def blocks16 (l : List Nat) : List (List Nat) := blocks16Aux l.length l

/-- SHA-256 of a byte list, as the 8-word digest. -/
def sha256 (msg : List Nat) : List Nat :=
  (blocks16 (toWords (sha256pad msg))).foldl sha256block sha256H0

def hexChar (n : Nat) : Char :=
  if n < 10 then Char.ofNat (48 + n) else Char.ofNat (87 + n)

/-- Lowercase hex rendering of one 32-bit word (8 digits). -/
def hexWord (x : Nat) : List Char :=
  (List.range 8).map (fun i => hexChar ((x >>> (28 - 4 * i)) % 16))

/-- `hex.EncodeToString(h.Sum(nil))` for the SHA-256 of `msg`:
64 lowercase hex characters. -/
def sha256hex (msg : List Nat) : String :=
  ⟨(sha256 msg).foldr (fun w acc => hexWord w ++ acc) []⟩

/-! ## Filesystem model

The destination directory is an association list from paths to files.  A
file carries its contents and its Unix mode.  `fsSet` models a write
(replace in place or append), `fsRemove` models `os.Remove`, `fsRename`
models the atomic `os.Rename`, `fsChmod` models `File.Chmod`. -/

structure FsFile where
  data : List Nat
  mode : Nat
deriving DecidableEq, Repr

abbrev Fs : Type := List (String × FsFile)

def fsGet : Fs → String → Option FsFile
  | [], _ => none
  | (q, f) :: rest, p => if q = p then some f else fsGet rest p

def fsSet : Fs → String → FsFile → Fs
  | [], p, f => [(p, f)]
  | (q, g) :: rest, p, f => if q = p then (p, f) :: rest else (q, g) :: fsSet rest p f

def fsRemove : Fs → String → Fs
  | [], _ => []
  | (q, g) :: rest, p => if q = p then fsRemove rest p else (q, g) :: fsRemove rest p

def fsRename (fs : Fs) (src dst : String) : Fs :=
  match fsGet fs src with
  | some f => fsSet (fsRemove fs src) dst f
  | none => fs

def fsChmod (fs : Fs) (p : String) (m : Nat) : Fs :=
  match fsGet fs p with
  | some f => fsSet fs p ⟨f.data, m⟩
  | none => fs

/-! ## Streams and the fallible-syscall environment

`stream.Read` delivers `bytes` and then either a clean EOF (`eof = true`)
or the error `err`.  `io.TeeReader` feeds the same bytes to the hash, so
the embedding threads one byte list to both the file and the digest.  The
environment fixes the fresh name `ioutil.TempFile` picks and which of the
fallible syscalls of the write path succeed. -/

structure ByteStream where
  bytes : List Nat
  eof : Bool
  err : String
deriving DecidableEq, Repr

structure PutBlobEnv where
  tempName : String
  tempCreateOk : Bool
  syncOk : Bool
  chmodOk : Bool
  renameOk : Bool
deriving DecidableEq, Repr

/-- The environment in which every syscall succeeds. -/
def allOk (tempName : String) : PutBlobEnv :=
  { tempName := tempName, tempCreateOk := true, syncOk := true,
    chmodOk := true, renameOk := true }

/-! ## Directory destination (`directory/directory_dest.go`)

`dirImageDestination.PutBlob` copies the stream through a SHA-256 tee into
a temp file, fsyncs, chmods to `0644`, renames to the content-addressed
path and returns `(hexDigest, size, nil)`; every failure path returns
`("", -1, err)` and the deferred cleanup removes the temp file.  Note the
directory variant returns the bare hex digest, without an algorithm
prefix.  Path helpers of `dirReference` are not under `src/`; they are
modelled from the spec layout `<dir>/manifest.json`, `<dir>/<hex-sha256>`. -/

/-- Modelled from the spec: `dirReference.layerPath` (not under `src/`),
layout `<dir>/<hex-sha256>`. -/
def dirLayerPath (path digest : String) : String := path ++ "/" ++ digest

/-- Temp file path inside the destination directory. -/
def tempPath (dir : String) (env : PutBlobEnv) : String := dir ++ "/" ++ env.tempName

def dirPutBlob (path : String) (env : PutBlobEnv) (stream : ByteStream) (fs : Fs) :
    (String × Int × Option String) × Fs :=
  if env.tempCreateOk = false then (("", -1, some "temp file creation failed"), fs)
  else
    let tp := tempPath path env
    let fs1 := fsSet fs tp ⟨stream.bytes, 0o600⟩
    if stream.eof = false then (("", -1, some stream.err), fsRemove fs1 tp)
    else if env.syncOk = false then (("", -1, some "sync failed"), fsRemove fs1 tp)
    else if env.chmodOk = false then (("", -1, some "chmod failed"), fsRemove fs1 tp)
    else
      let fs2 := fsChmod fs1 tp 0o644
      let computedDigest := sha256hex stream.bytes
      let blobPath := dirLayerPath path computedDigest
      if env.renameOk = false then (("", -1, some "rename failed"), fsRemove fs2 tp)
      else ((computedDigest, ((stream.bytes.length : Nat) : Int), none), fsRename fs2 tp blobPath)

/-! ## OCI layout destination (`oci/oci_dest.go`)

`ociImageDestination.PutBlob` is the same write path except that the
returned digest is `"sha256:" + hex` and the final path is
`blobs/<algo>/<hex>` under the layout directory (parents created by
`ensureParentDirectoryExists`, invisible in the file-map model).
`ociReference.blobPath` is not under `src/`; modelled from the spec layout
`<dir>/blobs/sha256/<hex>`, splitting the digest on `":"`. -/

/-- Split a character list at its first colon: the two halves of
`<algo>:<hex>`, or `none` when no colon occurs. -/
def splitColon : List Char → Option (List Char × List Char)
  | [] => none
  | c :: rest =>
    if c = ':' then some ([], rest)
    else
      match splitColon rest with
      | some (a, b) => some (c :: a, b)
      | none => none

/-- Modelled from the spec: `ociReference.blobPath` (not under `src/`),
layout `<dir>/blobs/sha256/<hex>`; fails unless the digest is
`<algo>:<hex>`. -/
def ociBlobPath (dir digest : String) : Option String :=
  match splitColon digest.data with
  | some (algo, hex) => some (dir ++ "/blobs/" ++ ⟨algo⟩ ++ "/" ++ ⟨hex⟩)
  | none => none

def ociPutBlob (dir : String) (env : PutBlobEnv) (stream : ByteStream) (fs : Fs) :
    (String × Int × Option String) × Fs :=
  if env.tempCreateOk = false then (("", -1, some "temp file creation failed"), fs)
  else
    let tp := tempPath dir env
    let fs1 := fsSet fs tp ⟨stream.bytes, 0o600⟩
    if stream.eof = false then (("", -1, some stream.err), fsRemove fs1 tp)
    else if env.syncOk = false then (("", -1, some "sync failed"), fsRemove fs1 tp)
    else if env.chmodOk = false then (("", -1, some "chmod failed"), fsRemove fs1 tp)
    else
      let fs2 := fsChmod fs1 tp 0o644
      let computedDigest := "sha256:" ++ sha256hex stream.bytes
      match ociBlobPath dir computedDigest with
      | none => (("", -1, some "invalid digest"), fsRemove fs2 tp)
      | some blobPath =>
        if env.renameOk = false then (("", -1, some "rename failed"), fsRemove fs2 tp)
        else ((computedDigest, ((stream.bytes.length : Nat) : Int), none), fsRename fs2 tp blobPath)

/-! ## MIME type constants

Constants of the `manifest` package and of the OCI image-spec library,
which are not under `src/`.  Modelled from the spec's list of recognized
manifest MIME types (§6). -/

def DockerV2Schema1MediaType : String := "application/vnd.docker.distribution.manifest.v1+json"

def DockerV2Schema1SignedMediaType : String := "application/vnd.docker.distribution.manifest.v1+prettyjws"

def DockerV2Schema2MediaType : String := "application/vnd.docker.distribution.manifest.v2+json"

def DockerV2ListMediaType : String := "application/vnd.docker.distribution.manifest.list.v2+json"

def MediaTypeImageManifest : String := "application/vnd.oci.image.manifest.v1+json"

def MediaTypeImageManifestList : String := "application/vnd.oci.image.manifest.list.v1+json"

def MediaTypeImageSerialization : String := "application/vnd.oci.image.serialization.rootfs.tar.gzip"

def MediaTypeImageSerializationConfig : String := "application/vnd.oci.image.serialization.config.v1+json"

/-- The spec's full list of recognized manifest MIME types (§6). -/
def specRecognizedMIMETypes : List String :=
  [DockerV2Schema1MediaType, DockerV2Schema1SignedMediaType, DockerV2Schema2MediaType,
   DockerV2ListMediaType, MediaTypeImageManifest, MediaTypeImageManifestList,
   "application/json"]

/-! ## Registry client source (`src/unnamed/part_000`, package `docker`)

`GetManifest` performs the GET (transport success is assumed here: the
claims concern the status dispatch), reads the whole body, and returns
`errFetchManifest{status, body}` for any non-200 status; on 200 it
returns the body and the `Content-Type` header.  `GetBlob` rejects
non-200, and otherwise parses the size from `Content-Length` with
`strconv.ParseInt`, substituting 0 on a parse error.  `GetSignatures`
always returns the empty list. -/

structure HTTPResponse where
  statusCode : Nat
  body : List Nat
  contentType : String
  /-- Value of the `Content-Length` header; `Header.Get` returns `""`
  when the header is absent. -/
  contentLength : String
deriving DecidableEq, Repr

/-- The error values `dockerImageSource.GetManifest` can produce, plus the
spec's `ManifestUnknown` kind, which the code never constructs. -/
inductive GetManifestErr
  | fetchManifest (statusCode : Nat) (body : List Nat)
  | manifestUnknown
deriving DecidableEq, Repr

def getManifest (res : HTTPResponse) : Except GetManifestErr (List Nat × String) :=
  if res.statusCode ≠ 200 then .error (.fetchManifest res.statusCode res.body)
  else .ok (res.body, res.contentType)

/-- Modelled from the spec: the spec's words for the manifest fetch,
"`ManifestUnknown` on 404", every other non-200 `FetchManifest{status,
body}`.  Kept beside `getManifest` (from the code) for comparison. -/
def getManifestSpec (res : HTTPResponse) : Except GetManifestErr (List Nat × String) :=
  if res.statusCode = 404 then .error .manifestUnknown
  else if res.statusCode ≠ 200 then .error (.fetchManifest res.statusCode res.body)
  else .ok (res.body, res.contentType)

/-- `strconv.ParseInt(s, 10, 64)`: optional sign, non-empty digit string,
result within the `int64` range; `none` on any syntax or range error. -/
def decDigitsAux : List Char → Nat → Option Nat
  | [], acc => some acc
  | c :: rest, acc =>
    if '0' ≤ c ∧ c ≤ '9' then decDigitsAux rest (acc * 10 + (c.toNat - 48)) else none

def parseIntCore (cs : List Char) (neg : Bool) : Option Int :=
  match cs, decDigitsAux cs 0 with
  | [], _ => none
  | _, none => none
  | _, some n =>
    if neg then (if n ≤ 9223372036854775808 then some (-(n : Int)) else none)
    else (if n ≤ 9223372036854775807 then some ((n : Nat) : Int) else none)

def goParseInt64 (s : String) : Option Int :=
  match s.data with
  | '+' :: rest => parseIntCore rest false
  | '-' :: rest => parseIntCore rest true
  | l => parseIntCore l false

def getBlob (res : HTTPResponse) : Except String (List Nat × Int) :=
  if res.statusCode ≠ 200 then
    .error ("Invalid status code returned when fetching blob " ++ toString res.statusCode)
  else
    let size : Int :=
      match goParseInt64 res.contentLength with
      | some n => n
      | none => 0
    .ok (res.body, size)

def dockerGetSignatures : Except String (List (List Nat)) := .ok []

/-! ## Manifest model dispatch (`src/image/manifest.go`)

`manifestInstanceFromBlob` switches on the inbound MIME type.  The
variant constructors (`manifestSchema1FromManifest` etc., not under
`src/`) are modelled from the spec as succeeding on well-formed bytes of
their dialect, so the dispatch target is what the embedding records. -/

inductive GenericManifest
  | schema1 (manblob : List Nat)
  | schema2 (manblob : List Nat)
  | schema2List (manblob : List Nat)
deriving DecidableEq, Repr

inductive ManifestErr
  /-- "could not guess manifest media type" -/
  | unknownMIME
  /-- "unsupported manifest media type ..." -/
  | unsupportedMIME (mt : String)
deriving DecidableEq, Repr

def manifestInstanceFromBlob (manblob : List Nat) (mt : String) :
    Except ManifestErr GenericManifest :=
  if mt = DockerV2Schema1MediaType ∨ mt = DockerV2Schema1SignedMediaType ∨
     mt = "application/json" then .ok (.schema1 manblob)
  else if mt = DockerV2Schema2MediaType then .ok (.schema2 manblob)
  else if mt = DockerV2ListMediaType then .ok (.schema2List manblob)
  else if mt = "" then .error .unknownMIME
  else .error (.unsupportedMIME mt)

/-! ## OCI manifest conversion (`src/oci/oci_dest.go`)

`createManifest` guesses the MIME type of the inbound manifest bytes and
either rejects (schema 1, either list kind, unrecognized), passes OCI
bytes through unchanged, or converts schema 2 by unmarshalling into the
OCI manifest structure, rewriting the three media-type fields and
re-marshalling.  A manifest blob is embedded as its parsed structure
(`GoManifest`); `json.Marshal` is modelled by a canonical JSON printer
over that structure, so "the bytes of `m`" are `serializeManifest m`. -/

structure Descriptor where
  mediaType : String
  digest : String
  size : Int
deriving DecidableEq, Repr

structure GoManifest where
  schemaVersion : Nat
  mediaType : String
  config : Descriptor
  layers : List Descriptor
deriving DecidableEq, Repr

def jsonOfDescriptor (d : Descriptor) : String :=
  "\x7b\"mediaType\":\"" ++ d.mediaType ++ "\",\"digest\":\"" ++ d.digest ++
  "\",\"size\":" ++ toString d.size ++ "\x7d"

def jsonOfManifest (m : GoManifest) : String :=
  "\x7b\"schemaVersion\":" ++ toString m.schemaVersion ++
  ",\"mediaType\":\"" ++ m.mediaType ++
  "\",\"config\":" ++ jsonOfDescriptor m.config ++
  ",\"layers\":[" ++ String.intercalate "," (m.layers.map jsonOfDescriptor) ++ "]\x7d"

def strToBytes (s : String) : List Nat := s.data.map Char.toNat

/-- `json.Marshal` on the OCI manifest structure, as bytes. -/
def serializeManifest (m : GoManifest) : List Nat := strToBytes (jsonOfManifest m)

/-- Modelled from the spec: `manifest.GuessMIMEType` (not under `src/`).
Returns the declared media type when it is one of the spec's recognized
MIME types, otherwise falls back on the schema version, otherwise `""`. -/
def GuessMIMEType (m : GoManifest) : String :=
  if m.mediaType ∈ specRecognizedMIMETypes then m.mediaType
  else if m.schemaVersion = 1 then DockerV2Schema1MediaType
  else if m.schemaVersion = 2 then DockerV2Schema2MediaType
  else ""

/-- The schema-2 → OCI rewrite inside `createManifest`: media type to the
OCI manifest type, every layer to the OCI serialization type, the config
to the OCI serialization-config type. -/
def rewriteToOCI (m : GoManifest) : GoManifest :=
  { m with
    mediaType := MediaTypeImageManifest,
    layers := m.layers.map (fun l => { l with mediaType := MediaTypeImageSerialization }),
    config := { m.config with mediaType := MediaTypeImageSerializationConfig } }

def createManifest (m : GoManifest) : Except String (List Nat × String) :=
  let mt := GuessMIMEType m
  if mt = DockerV2Schema1MediaType then
    .error "can't create OCI manifest from Docker V2 schema 1 manifest"
  else if mt = DockerV2Schema2MediaType then
    let om := rewriteToOCI m
    .ok (serializeManifest om, om.mediaType)
  else if mt = DockerV2ListMediaType then
    .error "can't create OCI manifest from Docker V2 schema 2 manifest list"
  else if mt = MediaTypeImageManifestList then
    .error "can't create OCI manifest from OCI manifest list"
  else if mt = MediaTypeImageManifest then
    .ok (serializeManifest m, mt)
  else .error "Unrecognized manifest media type"

/-- Modelled from the spec: `manifest.Digest` (not under `src/`); the
canonical content address `"sha256:" + hex(sha256(bytes))`. -/
def manifestDigest (bytes : List Nat) : String := "sha256:" ++ sha256hex bytes

def ociLayoutFileBytes : List Nat := strToBytes "\x7b\"imageLayoutVersion\": \"1.0.0\"\x7d"

/-- `ociImageDestination.PutManifest`: convert, then write the manifest
blob, the `oci-layout` marker and the tag descriptor (all mode `0644`;
`ensureParentDirectoryExists` is invisible in the file-map model).
Descriptor and layout paths are modelled from the spec layout
`<dir>/refs/<tag>`, `<dir>/oci-layout`. -/
def ociPutManifest (dir tag : String) (m : GoManifest) (fs : Fs) : Option String × Fs :=
  match createManifest m with
  | .error e => (some e, fs)
  | .ok (ociMan, mt) =>
    let digest := manifestDigest ociMan
    let descData := strToBytes (jsonOfDescriptor ⟨mt, digest, ((ociMan.length : Nat) : Int)⟩)
    match ociBlobPath dir digest with
    | none => (some "invalid digest", fs)
    | some bp =>
      let fs1 := fsSet fs bp ⟨ociMan, 0o644⟩
      let fs2 := fsSet fs1 (dir ++ "/oci-layout") ⟨ociLayoutFileBytes, 0o644⟩
      (none, fsSet fs2 (dir ++ "/refs/" ++ tag) ⟨descData, 0o644⟩)

/-- `ociImageDestination.PutSignatures`: fails unless the list is empty;
touches nothing. -/
def ociPutSignatures (signatures : List (List Nat)) (fs : Fs) : Option String × Fs :=
  if signatures.length ≠ 0 then
    (some "Pushing signatures for OCI images is not supported", fs)
  else (none, fs)

/-! ## Filesystem lemmas -/

theorem fsGet_fsSet_self (fs : Fs) (p : String) (v : FsFile) :
    fsGet (fsSet fs p v) p = some v := by
  induction fs with
  | nil => simp [fsSet, fsGet]
  | cons hd tl ih =>
    obtain ⟨q, g⟩ := hd
    by_cases h : q = p
    · simp [fsSet, fsGet, h]
    · simp [fsSet, fsGet, h, ih]

theorem fsSet_fsSet (fs : Fs) (p : String) (v w : FsFile) :
    fsSet (fsSet fs p v) p w = fsSet fs p w := by
  induction fs with
  | nil => simp [fsSet]
  | cons hd tl ih =>
    obtain ⟨q, g⟩ := hd
    by_cases h : q = p
    · simp [fsSet, h]
    · simp [fsSet, h, ih]

theorem fsRemove_fsSet (fs : Fs) (p : String) (v : FsFile)
    (h : fsGet fs p = none) : fsRemove (fsSet fs p v) p = fs := by
  induction fs with
  | nil => simp [fsSet, fsRemove]
  | cons hd tl ih =>
    obtain ⟨q, g⟩ := hd
    by_cases hq : q = p
    · simp [fsGet, hq] at h
    · simp [fsGet, hq] at h
      simp [fsSet, fsRemove, hq, ih h]

theorem fsChmod_fsSet (fs : Fs) (p : String) (v : FsFile) (m : Nat) :
    fsChmod (fsSet fs p v) p m = fsSet fs p ⟨v.data, m⟩ := by
  unfold fsChmod
  rw [fsGet_fsSet_self]
  exact fsSet_fsSet fs p v ⟨v.data, m⟩

theorem fsRename_fsSet (fs : Fs) (p q : String) (v : FsFile)
    (h : fsGet fs p = none) : fsRename (fsSet fs p v) p q = fsSet fs q v := by
  unfold fsRename
  rw [fsGet_fsSet_self, fsRemove_fsSet fs p v h]

/-! ## Path lemmas -/

theorem splitColon_sha256_prefix (l : List Char) :
    splitColon ( 's' :: 'h' :: 'a' :: '2' :: '5' :: '6' :: ':' :: l) =
      some ([ 's', 'h', 'a', '2', '5', '6'], l) := rfl

theorem ociBlobPath_sha256 (dir hex : String) :
    ociBlobPath dir ("sha256:" ++ hex) = some (dir ++ "/blobs/sha256/" ++ hex) := by
  obtain ⟨l⟩ := hex
  show some ((dir ++ "/blobs/" ++ "sha256") ++ "/" ++ ⟨l⟩) = _
  apply congrArg
  apply String.ext
  simp [String.data_append]

/-! ## Collapsed denotations of the two blob write paths -/

theorem dirPutBlob_eq (path : String) (env : PutBlobEnv) (s : ByteStream) (fs : Fs)
    (hf : fsGet fs (tempPath path env) = none) :
    dirPutBlob path env s fs =
      if env.tempCreateOk = false then (("", -1, some "temp file creation failed"), fs)
      else if s.eof = false then (("", -1, some s.err), fs)
      else if env.syncOk = false then (("", -1, some "sync failed"), fs)
      else if env.chmodOk = false then (("", -1, some "chmod failed"), fs)
      else if env.renameOk = false then (("", -1, some "rename failed"), fs)
      else ((sha256hex s.bytes, ((s.bytes.length : Nat) : Int), none),
            fsSet fs (dirLayerPath path (sha256hex s.bytes)) ⟨s.bytes, 0o644⟩) := by
  by_cases h1 : env.tempCreateOk = false <;>
    by_cases h2 : s.eof = false <;>
    by_cases h3 : env.syncOk = false <;>
    by_cases h4 : env.chmodOk = false <;>
    by_cases h5 : env.renameOk = false <;>
    simp [dirPutBlob, h1, h2, h3, h4, h5, hf,
          fsRemove_fsSet, fsChmod_fsSet, fsRename_fsSet]

theorem ociPutBlob_eq (dir : String) (env : PutBlobEnv) (s : ByteStream) (fs : Fs)
    (hf : fsGet fs (tempPath dir env) = none) :
    ociPutBlob dir env s fs =
      if env.tempCreateOk = false then (("", -1, some "temp file creation failed"), fs)
      else if s.eof = false then (("", -1, some s.err), fs)
      else if env.syncOk = false then (("", -1, some "sync failed"), fs)
      else if env.chmodOk = false then (("", -1, some "chmod failed"), fs)
      else if env.renameOk = false then (("", -1, some "rename failed"), fs)
      else (("sha256:" ++ sha256hex s.bytes, ((s.bytes.length : Nat) : Int), none),
            fsSet fs (dir ++ "/blobs/sha256/" ++ sha256hex s.bytes) ⟨s.bytes, 0o644⟩) := by
  by_cases h1 : env.tempCreateOk = false <;>
    by_cases h2 : s.eof = false <;>
    by_cases h3 : env.syncOk = false <;>
    by_cases h4 : env.chmodOk = false <;>
    by_cases h5 : env.renameOk = false <;>
    simp [ociPutBlob, h1, h2, h3, h4, h5, hf, ociBlobPath_sha256,
          fsRemove_fsSet, fsChmod_fsSet, fsRename_fsSet]

theorem dirPutBlob_failure_aux (path : String) (env : PutBlobEnv) (s : ByteStream)
    (fs : Fs) (hf : fsGet fs (tempPath path env) = none)
    (he : (dirPutBlob path env s fs).1.2.2 ≠ none) :
    (dirPutBlob path env s fs).1.1 = "" ∧ (dirPutBlob path env s fs).1.2.1 = -1 ∧
    (dirPutBlob path env s fs).2 = fs := by
  rw [dirPutBlob_eq path env s fs hf] at he ⊢
  split_ifs at he ⊢ <;> simp_all

theorem ociPutBlob_failure_aux (dir : String) (env : PutBlobEnv) (s : ByteStream)
    (fs : Fs) (hf : fsGet fs (tempPath dir env) = none)
    (he : (ociPutBlob dir env s fs).1.2.2 ≠ none) :
    (ociPutBlob dir env s fs).1.1 = "" ∧ (ociPutBlob dir env s fs).1.2.1 = -1 ∧
    (ociPutBlob dir env s fs).2 = fs := by
  rw [ociPutBlob_eq dir env s fs hf] at he ⊢
  split_ifs at he ⊢ <;> simp_all

/-! ## Claims -/

/-- C1 (amended): for every byte sequence B written through PutBlob of a
filesystem destination with a working environment and a fresh temp name,
the stream read cleanly, the call returns size = len(B) and stores exactly
B with mode 0644 at the final content-addressed path; the OCI destination
returns computed-digest = "sha256:" + hex(sha256(B)), while the directory
destination returns the bare hex digest hex(sha256(B)) without the
algorithm prefix. -/
theorem putBlob_roundtrip (path dir : String) (env : PutBlobEnv) (s : ByteStream)
    (fs fsO : Fs)
    (htc : env.tempCreateOk = true) (hsy : env.syncOk = true)
    (hch : env.chmodOk = true) (hrn : env.renameOk = true)
    (heof : s.eof = true)
    (hf : fsGet fs (tempPath path env) = none)
    (hfO : fsGet fsO (tempPath dir env) = none) :
    dirPutBlob path env s fs =
      ((sha256hex s.bytes, ((s.bytes.length : Nat) : Int), none),
       fsSet fs (dirLayerPath path (sha256hex s.bytes)) ⟨s.bytes, 0o644⟩) ∧
    ociPutBlob dir env s fsO =
      (("sha256:" ++ sha256hex s.bytes, ((s.bytes.length : Nat) : Int), none),
       fsSet fsO (dir ++ "/blobs/sha256/" ++ sha256hex s.bytes) ⟨s.bytes, 0o644⟩) := by
  rw [dirPutBlob_eq path env s fs hf, ociPutBlob_eq dir env s fsO hfO]
  simp [htc, hsy, hch, hrn, heof]

/-- C1 witness: the spec scenario S1, B = "hello", evaluated on both
destinations starting from an empty directory. -/
theorem putBlob_roundtrip_witness :
    fsGet ([] : Fs) (tempPath "/d" (allOk "b")) = none ∧
    (dirPutBlob "/d" (allOk "b") ⟨[104, 101, 108, 108, 111], true, ""⟩ [] =
      (("2cf24dba5fb0a30e26e83b2ac5b9e29e1b161e5c1fa7425e73043362938b9824", 5, none),
       [("/d/2cf24dba5fb0a30e26e83b2ac5b9e29e1b161e5c1fa7425e73043362938b9824",
         ⟨[104, 101, 108, 108, 111], 0o644⟩)]) ∧
     ociPutBlob "/o" (allOk "b") ⟨[104, 101, 108, 108, 111], true, ""⟩ [] =
      (("sha256:2cf24dba5fb0a30e26e83b2ac5b9e29e1b161e5c1fa7425e73043362938b9824", 5, none),
       [("/o/blobs/sha256/2cf24dba5fb0a30e26e83b2ac5b9e29e1b161e5c1fa7425e73043362938b9824",
         ⟨[104, 101, 108, 108, 111], 0o644⟩)])) :=
  ⟨rfl, putBlob_roundtrip "/d" "/o" (allOk "b") ⟨[104, 101, 108, 108, 111], true, ""⟩
    [] [] rfl rfl rfl rfl rfl rfl rfl⟩

/-- C1 counterexample: at B = "hello" the directory destination returns
the bare hex digest, which is not "sha256:" + hex(sha256(B)); the claim
as stated fails for the directory filesystem destination. -/
theorem dirPutBlob_bare_hex_digest :
    (dirPutBlob "/d" (allOk "b") ⟨[104, 101, 108, 108, 111], true, ""⟩ []).1.1 =
      "2cf24dba5fb0a30e26e83b2ac5b9e29e1b161e5c1fa7425e73043362938b9824" ∧
    (dirPutBlob "/d" (allOk "b") ⟨[104, 101, 108, 108, 111], true, ""⟩ []).1.1 ≠
      "sha256:" ++ sha256hex [104, 101, 108, 108, 111] := by
  exact ⟨rfl, by decide⟩

/-- C2 (confirmed): when the stream errors after any number of bytes,
both PutBlob implementations return the stream error with digest "" and
size -1, and leave the filesystem exactly as it was: the temporary file
has been removed and nothing exists at any content-addressed path that
did not exist before (in particular, starting from an empty directory,
nothing at all). -/
theorem putBlob_stream_error_atomic (path dir : String) (env : PutBlobEnv)
    (s : ByteStream) (fs fsO : Fs)
    (htc : env.tempCreateOk = true) (heof : s.eof = false)
    (hf : fsGet fs (tempPath path env) = none)
    (hfO : fsGet fsO (tempPath dir env) = none) :
    dirPutBlob path env s fs = (("", -1, some s.err), fs) ∧
    ociPutBlob dir env s fsO = (("", -1, some s.err), fsO) := by
  rw [dirPutBlob_eq path env s fs hf, ociPutBlob_eq dir env s fsO hfO]
  simp [htc, heof]

/-- C2 witness: the spec scenario S6, a stream that errors after 3 bytes,
from an empty directory on both destinations. -/
theorem putBlob_stream_error_atomic_witness :
    fsGet ([] : Fs) (tempPath "/d" (allOk "t")) = none ∧
    (dirPutBlob "/d" (allOk "t") ⟨[1, 2, 3], false, "read failed"⟩ [] =
      (("", -1, some "read failed"), []) ∧
     ociPutBlob "/o" (allOk "t") ⟨[1, 2, 3], false, "read failed"⟩ [] =
      (("", -1, some "read failed"), [])) :=
  ⟨rfl, putBlob_stream_error_atomic "/d" "/o" (allOk "t") ⟨[1, 2, 3], false, "read failed"⟩
    [] [] rfl rfl rfl rfl⟩

/-- C3 (amended): every non-200 registry response to the manifest GET,
the 404 status included, makes GetManifest fail with
FetchManifest{status, body}; the code has no distinct ManifestUnknown
error. -/
theorem getManifest_non200_fetchManifest (res : HTTPResponse)
    (h : res.statusCode ≠ 200) :
    getManifest res = .error (.fetchManifest res.statusCode res.body) := by
  simp [getManifest, h]

/-- C3 witness: a 404 response fails with FetchManifest{404, body}. -/
theorem getManifest_non200_fetchManifest_witness :
    (404 : Nat) ≠ 200 ∧
    getManifest ⟨404, [42], "", ""⟩ = .error (.fetchManifest 404 [42]) :=
  ⟨by decide, getManifest_non200_fetchManifest ⟨404, [42], "", ""⟩ (by decide)⟩

/-- C3 counterexample: on a 404 response the code returns the same
FetchManifest error as any other non-200 status, not the distinct
ManifestUnknown error the spec describes (shown beside the spec-modelled
behaviour, which does return ManifestUnknown there). -/
theorem getManifest_404_not_manifestUnknown :
    getManifest ⟨404, [42], "", ""⟩ = .error (.fetchManifest 404 [42]) ∧
    getManifest ⟨404, [42], "", ""⟩ ≠ .error .manifestUnknown ∧
    getManifestSpec ⟨404, [42], "", ""⟩ = .error .manifestUnknown := by
  refine ⟨rfl, ?_, rfl⟩
  intro h
  simp [getManifest] at h

/-- C4 (confirmed): manifest-model dispatch fails UnknownManifestMIME on
the empty MIME type, fails UnsupportedManifestMIME on any MIME type
outside the five recognized by the dispatch, and dispatches the two
Docker schema-1 types and "application/json" to the Schema1 variant. -/
theorem manifestInstanceFromBlob_dispatch (b : List Nat) (mtU mtS : String)
    (hu1 : mtU ∉ [DockerV2Schema1MediaType, DockerV2Schema1SignedMediaType,
                  "application/json", DockerV2Schema2MediaType, DockerV2ListMediaType])
    (hu2 : mtU ≠ "")
    (hs : mtS = DockerV2Schema1MediaType ∨ mtS = DockerV2Schema1SignedMediaType ∨
          mtS = "application/json") :
    manifestInstanceFromBlob b "" = .error .unknownMIME ∧
    manifestInstanceFromBlob b mtU = .error (.unsupportedMIME mtU) ∧
    manifestInstanceFromBlob b mtS = .ok (.schema1 b) := by
  simp only [List.mem_cons, List.not_mem_nil, or_false, not_or] at hu1
  obtain ⟨n1, n2, n3, n4, n5⟩ := hu1
  refine ⟨rfl, ?_, ?_⟩
  · simp [manifestInstanceFromBlob, n1, n2, n3, n4, n5, hu2]
  · rcases hs with h | h | h <;> subst h <;> rfl

/-- C4 witness: an unrecognized type "bogus/type" and the schema-1 alias
"application/json" on a one-byte blob. -/
theorem manifestInstanceFromBlob_dispatch_witness :
    "bogus/type" ∉ [DockerV2Schema1MediaType, DockerV2Schema1SignedMediaType,
                    "application/json", DockerV2Schema2MediaType, DockerV2ListMediaType] ∧
    ("bogus/type" : String) ≠ "" ∧
    ("application/json" = DockerV2Schema1MediaType ∨
     "application/json" = DockerV2Schema1SignedMediaType ∨
     ("application/json" : String) = "application/json") ∧
    (manifestInstanceFromBlob [1] "" = .error .unknownMIME ∧
     manifestInstanceFromBlob [1] "bogus/type" = .error (.unsupportedMIME "bogus/type") ∧
     manifestInstanceFromBlob [1] "application/json" = .ok (.schema1 [1])) :=
  ⟨by decide, by decide, by decide,
   manifestInstanceFromBlob_dispatch [1] "bogus/type" "application/json"
     (by decide) (by decide) (by decide)⟩

/-- C5 (amended): the manifest-model dispatch selects a variant only for
the Docker schema-1 (plain and signed), "application/json", schema-2 and
schema-2-list MIME types; the two OCI types of the spec's recognized
list are not dispatched and fail UnsupportedManifestMIME. -/
theorem manifestInstanceFromBlob_recognized (b : List Nat) :
    manifestInstanceFromBlob b DockerV2Schema1MediaType = .ok (.schema1 b) ∧
    manifestInstanceFromBlob b DockerV2Schema1SignedMediaType = .ok (.schema1 b) ∧
    manifestInstanceFromBlob b "application/json" = .ok (.schema1 b) ∧
    manifestInstanceFromBlob b DockerV2Schema2MediaType = .ok (.schema2 b) ∧
    manifestInstanceFromBlob b DockerV2ListMediaType = .ok (.schema2List b) ∧
    manifestInstanceFromBlob b MediaTypeImageManifest =
      .error (.unsupportedMIME MediaTypeImageManifest) ∧
    manifestInstanceFromBlob b MediaTypeImageManifestList =
      .error (.unsupportedMIME MediaTypeImageManifestList) :=
  ⟨rfl, rfl, rfl, rfl, rfl, rfl, rfl⟩

/-- C5 counterexample: both OCI MIME types are in the spec's recognized
list, yet the dispatch fails UnsupportedManifestMIME on them instead of
selecting a manifest variant. -/
theorem manifestInstanceFromBlob_oci_unsupported :
    MediaTypeImageManifest ∈ specRecognizedMIMETypes ∧
    MediaTypeImageManifestList ∈ specRecognizedMIMETypes ∧
    manifestInstanceFromBlob [1] MediaTypeImageManifest =
      .error (.unsupportedMIME MediaTypeImageManifest) ∧
    manifestInstanceFromBlob [1] MediaTypeImageManifestList =
      .error (.unsupportedMIME MediaTypeImageManifestList) := by
  exact ⟨by decide, by decide, rfl, rfl⟩

/-- C6 (confirmed): a manifest whose guessed MIME type is Docker V2
schema 1 is rejected by createManifest, and PutManifest on the OCI
destination therefore fails, leaving the filesystem untouched. -/
theorem createManifest_schema1_rejected (m : GoManifest) (dir tag : String) (fs : Fs)
    (h : GuessMIMEType m = DockerV2Schema1MediaType) :
    createManifest m = .error "can't create OCI manifest from Docker V2 schema 1 manifest" ∧
    ociPutManifest dir tag m fs =
      (some "can't create OCI manifest from Docker V2 schema 1 manifest", fs) := by
  have hc : createManifest m =
      .error "can't create OCI manifest from Docker V2 schema 1 manifest" := by
    simp [createManifest, h]
  exact ⟨hc, by simp [ociPutManifest, hc]⟩

/-- C6 witness: a schema-1 manifest with the declared schema-1 media
type, pushed to an OCI destination with an empty filesystem. -/
theorem createManifest_schema1_rejected_witness :
    GuessMIMEType ⟨1, DockerV2Schema1MediaType, ⟨"", "", 0⟩, []⟩ = DockerV2Schema1MediaType ∧
    (createManifest ⟨1, DockerV2Schema1MediaType, ⟨"", "", 0⟩, []⟩ =
      .error "can't create OCI manifest from Docker V2 schema 1 manifest" ∧
     ociPutManifest "/o" "latest" ⟨1, DockerV2Schema1MediaType, ⟨"", "", 0⟩, []⟩ [] =
      (some "can't create OCI manifest from Docker V2 schema 1 manifest", [])) :=
  ⟨by decide, createManifest_schema1_rejected ⟨1, DockerV2Schema1MediaType, ⟨"", "", 0⟩, []⟩
    "/o" "latest" [] (by decide)⟩

/-- C7 (confirmed): converting a manifest whose guessed MIME type is
Docker V2 schema 2 yields the reserialized rewritten structure with
manifest media type the OCI manifest type, the config descriptor
rewritten to the OCI config type, and every layer descriptor rewritten
to the OCI layer serialization type. -/
theorem createManifest_schema2_to_oci (m : GoManifest)
    (h : GuessMIMEType m = DockerV2Schema2MediaType) :
    createManifest m = .ok (serializeManifest (rewriteToOCI m), MediaTypeImageManifest) ∧
    (rewriteToOCI m).mediaType = MediaTypeImageManifest ∧
    (rewriteToOCI m).config.mediaType = MediaTypeImageSerializationConfig ∧
    (rewriteToOCI m).layers.map Descriptor.mediaType =
      List.replicate m.layers.length MediaTypeImageSerialization := by
  have hne : DockerV2Schema2MediaType ≠ DockerV2Schema1MediaType := by decide
  refine ⟨?_, rfl, rfl, ?_⟩
  · simp [createManifest, h, hne, rewriteToOCI]
  · simp [rewriteToOCI, List.map_map, Function.comp_def, List.map_const']

/-- C7 witness: the spec scenario S4, a schema-2 manifest with the Docker
config type and one Docker rootfs-tar-gzip layer. -/
theorem createManifest_schema2_to_oci_witness :
    GuessMIMEType ⟨2, DockerV2Schema2MediaType,
        ⟨"application/vnd.docker.container.image.v1+json", "sha256:aa", 7⟩,
        [⟨"application/vnd.docker.image.rootfs.diff.tar.gzip", "sha256:bb", 9⟩]⟩ =
      DockerV2Schema2MediaType ∧
    (createManifest ⟨2, DockerV2Schema2MediaType,
        ⟨"application/vnd.docker.container.image.v1+json", "sha256:aa", 7⟩,
        [⟨"application/vnd.docker.image.rootfs.diff.tar.gzip", "sha256:bb", 9⟩]⟩ =
      .ok (serializeManifest (rewriteToOCI ⟨2, DockerV2Schema2MediaType,
        ⟨"application/vnd.docker.container.image.v1+json", "sha256:aa", 7⟩,
        [⟨"application/vnd.docker.image.rootfs.diff.tar.gzip", "sha256:bb", 9⟩]⟩),
        MediaTypeImageManifest) ∧
     (rewriteToOCI ⟨2, DockerV2Schema2MediaType,
        ⟨"application/vnd.docker.container.image.v1+json", "sha256:aa", 7⟩,
        [⟨"application/vnd.docker.image.rootfs.diff.tar.gzip", "sha256:bb", 9⟩]⟩).mediaType =
      MediaTypeImageManifest ∧
     (rewriteToOCI ⟨2, DockerV2Schema2MediaType,
        ⟨"application/vnd.docker.container.image.v1+json", "sha256:aa", 7⟩,
        [⟨"application/vnd.docker.image.rootfs.diff.tar.gzip", "sha256:bb", 9⟩]⟩).config.mediaType =
      MediaTypeImageSerializationConfig ∧
     (rewriteToOCI ⟨2, DockerV2Schema2MediaType,
        ⟨"application/vnd.docker.container.image.v1+json", "sha256:aa", 7⟩,
        [⟨"application/vnd.docker.image.rootfs.diff.tar.gzip", "sha256:bb", 9⟩]⟩).layers.map
        Descriptor.mediaType =
      List.replicate 1 MediaTypeImageSerialization) :=
  ⟨by decide, createManifest_schema2_to_oci ⟨2, DockerV2Schema2MediaType,
      ⟨"application/vnd.docker.container.image.v1+json", "sha256:aa", 7⟩,
      [⟨"application/vnd.docker.image.rootfs.diff.tar.gzip", "sha256:bb", 9⟩]⟩ (by decide)⟩

/-- C8 (confirmed): PutSignatures on the OCI destination succeeds exactly
when the signature list is empty, in which case it changes nothing, and
the registry source's GetSignatures always returns the empty sequence. -/
theorem putSignatures_getSignatures (sigs : List (List Nat)) (fs : Fs) :
    ((ociPutSignatures sigs fs).1 = none ↔ sigs = []) ∧
    ociPutSignatures [] fs = (none, fs) ∧
    dockerGetSignatures = .ok [] := by
  refine ⟨?_, rfl, rfl⟩
  cases sigs <;> simp [ociPutSignatures]

/-- C9 (confirmed): a 200 blob response returns the size parsed from
Content-Length, 0 when that header is absent (the empty string) or
unparseable; a non-200 status fails. -/
theorem getBlob_size_from_contentLength (res resA res2 : HTTPResponse) (n : Int)
    (h200 : res.statusCode = 200) (hp : goParseInt64 res.contentLength = some n)
    (hA : resA.statusCode = 200) (hpA : goParseInt64 resA.contentLength = none)
    (h2 : res2.statusCode ≠ 200) :
    getBlob res = .ok (res.body, n) ∧
    getBlob resA = .ok (resA.body, 0) ∧
    getBlob res2 =
      .error ("Invalid status code returned when fetching blob " ++ toString res2.statusCode) ∧
    goParseInt64 "" = none := by
  refine ⟨?_, ?_, ?_, rfl⟩ <;> simp [getBlob, h200, hp, hA, hpA, h2]

/-- C9 witness: Content-Length "123" parses to size 123, the absent
header (empty string) gives size 0, and a 500 status fails. -/
theorem getBlob_size_from_contentLength_witness :
    (200 : Nat) = 200 ∧ goParseInt64 "123" = some 123 ∧
    (200 : Nat) = 200 ∧ goParseInt64 "" = none ∧
    (500 : Nat) ≠ 200 ∧
    (getBlob ⟨200, [7], "", "123"⟩ = .ok ([7], 123) ∧
     getBlob ⟨200, [8], "", ""⟩ = .ok ([8], 0) ∧
     getBlob ⟨500, [9], "", ""⟩ =
       .error ("Invalid status code returned when fetching blob " ++ toString (500 : Nat)) ∧
     goParseInt64 "" = none) :=
  ⟨rfl, by decide, rfl, rfl, by decide,
   getBlob_size_from_contentLength ⟨200, [7], "", "123"⟩ ⟨200, [8], "", ""⟩ ⟨500, [9], "", ""⟩
     123 rfl (by decide) rfl rfl (by decide)⟩

/-- C10 (confirmed): whenever either PutBlob returns an error — temp file
creation, stream read, fsync, chmod or rename failure — it returns the
empty digest and size -1 (not 0), and the filesystem is exactly as
before the call: the temporary file is removed on every failure path. -/
theorem putBlob_failure_empty_digest (path dir : String) (env envO : PutBlobEnv)
    (s sO : ByteStream) (fs fsO : Fs)
    (hf : fsGet fs (tempPath path env) = none)
    (hfO : fsGet fsO (tempPath dir envO) = none)
    (he : (dirPutBlob path env s fs).1.2.2 ≠ none)
    (heO : (ociPutBlob dir envO sO fsO).1.2.2 ≠ none) :
    (dirPutBlob path env s fs).1.1 = "" ∧ (dirPutBlob path env s fs).1.2.1 = -1 ∧
    (dirPutBlob path env s fs).2 = fs ∧
    (ociPutBlob dir envO sO fsO).1.1 = "" ∧ (ociPutBlob dir envO sO fsO).1.2.1 = -1 ∧
    (ociPutBlob dir envO sO fsO).2 = fsO := by
  obtain ⟨d1, d2, d3⟩ := dirPutBlob_failure_aux path env s fs hf he
  obtain ⟨o1, o2, o3⟩ := ociPutBlob_failure_aux dir envO sO fsO hfO heO
  exact ⟨d1, d2, d3, o1, o2, o3⟩

/-- C10 witness: a chmod failure on the directory destination and an
fsync failure on the OCI destination, both from an empty directory. -/
theorem putBlob_failure_empty_digest_witness :
    fsGet ([] : Fs) (tempPath "/d" ⟨"t", true, true, false, true⟩) = none ∧
    fsGet ([] : Fs) (tempPath "/o" ⟨"t", true, false, true, true⟩) = none ∧
    (dirPutBlob "/d" ⟨"t", true, true, false, true⟩ ⟨[1], true, ""⟩ []).1.2.2 ≠ none ∧
    (ociPutBlob "/o" ⟨"t", true, false, true, true⟩ ⟨[1], true, ""⟩ []).1.2.2 ≠ none ∧
    ((dirPutBlob "/d" ⟨"t", true, true, false, true⟩ ⟨[1], true, ""⟩ []).1.1 = "" ∧
     (dirPutBlob "/d" ⟨"t", true, true, false, true⟩ ⟨[1], true, ""⟩ []).1.2.1 = -1 ∧
     (dirPutBlob "/d" ⟨"t", true, true, false, true⟩ ⟨[1], true, ""⟩ []).2 = [] ∧
     (ociPutBlob "/o" ⟨"t", true, false, true, true⟩ ⟨[1], true, ""⟩ []).1.1 = "" ∧
     (ociPutBlob "/o" ⟨"t", true, false, true, true⟩ ⟨[1], true, ""⟩ []).1.2.1 = -1 ∧
     (ociPutBlob "/o" ⟨"t", true, false, true, true⟩ ⟨[1], true, ""⟩ []).2 = []) :=
  ⟨rfl, rfl, by decide, by decide,
   putBlob_failure_empty_digest "/d" "/o" ⟨"t", true, true, false, true⟩
     ⟨"t", true, false, true, true⟩ ⟨[1], true, ""⟩ ⟨[1], true, ""⟩ [] []
     rfl rfl (by decide) (by decide)⟩

end ImageCore
